import Mathlib

/-!
Shallow embedding of the Live-Text-Scanner application core
(src/services/geminiService.ts and the coordinator logic of src/App.tsx,
the revision that supports scan cancellation via cancelScanRef).

Conventions of the embedding:
* Thrown JavaScript errors are modelled by their message string (every
  throw site in the service constructs an Error with a message, and the
  classification code only inspects message substrings).
* `response.text` of the remote model may be absent, so the remote call
  oracle returns an Option String inside Except.
* Asynchronous control flow is modelled by an explicit event-step state
  machine: an event for the synchronous prefix of each handler and an
  event for the resumption after each await.  Ghost fields count the
  remote calls that have been started but not yet resolved.
-/

/-- Helper for substring search: does pat occur as a contiguous run in l? -/
def containsSub (pat : List Char) : List Char → Bool
  | [] => pat.isEmpty
  | c :: cs => List.isPrefixOf pat (c :: cs) || containsSub pat cs

/-- Model of JavaScript String.prototype.includes: substring containment. -/
def strIncludes (s pat : String) : Bool :=
  containsSub pat.toList s.toList

/-- geminiService.ts line 141: message contains 429 or RESOURCE_EXHAUSTED. -/
def isRateLimitError (msg : String) : Bool :=
  strIncludes msg ("429") || strIncludes msg ("RESOURCE_EXHAUSTED")

/-- geminiService.ts line 142: message contains the invalid-key marker. -/
def isInvalidKeyError (msg : String) : Bool :=
  strIncludes msg ("API key not valid")

/-- Result of one run of the retry wrapper, instrumented with the backoff
delays that were slept and the attempt indices on which the wrapped
operation was invoked. -/
structure RetryTrace (α : Type) where
  result : Except String α
  delays : List Nat
  attempts : List Nat

/-- The retry loop of callGeminiWithRetry (geminiService.ts lines 136-163),
started at a given attempt index.  The wrapped operation is an oracle
giving the outcome of each attempt. -/
def callGeminiAux {α : Type} (apiCall : Nat → Except String α)
    (maxRetries initialDelay attempt : Nat) : RetryTrace α :=
  match apiCall attempt with
  | Except.ok r => ⟨Except.ok r, [], [attempt]⟩
  | Except.error msg =>
      if isInvalidKeyError msg then
        -- don't retry on invalid key, fail immediately
        ⟨Except.error msg, [], [attempt]⟩
      else if isRateLimitError msg then
        if h : attempt < maxRetries then
          let delay := initialDelay * 2 ^ attempt
          let rest := callGeminiAux apiCall maxRetries initialDelay (attempt + 1)
          ⟨rest.result, delay :: rest.delays, attempt :: rest.attempts⟩
        else
          ⟨Except.error msg, [], [attempt]⟩
      else
        ⟨Except.error msg, [], [attempt]⟩
termination_by maxRetries - attempt
decreasing_by simp_wf; omega

/-- callGeminiWithRetry: the loop starting at attempt 0.  The source
defaults are maxRetries = 2 and initialDelay = 2000. -/
def callGeminiWithRetry {α : Type} (apiCall : Nat → Except String α)
    (maxRetries initialDelay : Nat) : RetryTrace α :=
  callGeminiAux apiCall maxRetries initialDelay 0

/-- Message logged by initializeApi when called with an empty key. -/
def emptyKeyMsg : String := "Attempted to initialize API without a key."

/-- Message thrown by extractTextFromImage / getAnswerFromText when the
client was never initialized. -/
def notInitializedMsg : String := "API not initialized. Please set your API key first."

/-- initializeApi (geminiService.ts lines 118-125).  The module-level
client is modelled by the Option of the stored key; the function returns
the new client value together with the reported configuration error, if
any (the source reports it via console.error and leaves the client null). -/
def initializeApi (apiKey : String) : Option String × Option String :=
  if apiKey = "" then (none, some emptyKeyMsg)
  else (some apiKey, none)

/-- extractTextFromImage (geminiService.ts lines 172-202).  `remote` is the
oracle for the remote model: it receives the stored key and the image and
yields the outcome of each attempt, where a successful response carries an
optional text (`response.text ?? ''` is modelled by `getD`).  The outer
try/catch of the source only logs and rethrows. -/
def extractTextFromImage (ai : Option String)
    (remote : String → String → Nat → Except String (Option String))
    (base64Image : String) : Except String String :=
  match ai with
  | none => Except.error notInitializedMsg
  | some key =>
      match (callGeminiWithRetry (remote key base64Image) 2 2000).result with
      | Except.ok t => Except.ok (t.getD "")
      | Except.error e => Except.error e

/-- getAnswerFromText (geminiService.ts lines 207-233), same shape as
extractTextFromImage but the oracle receives the submitted question. -/
def getAnswerFromText (ai : Option String)
    (remote : String → String → Nat → Except String (Option String))
    (question : String) : Except String String :=
  match ai with
  | none => Except.error notInitializedMsg
  | some key =>
      match (callGeminiWithRetry (remote key question) 2 2000).result with
      | Except.ok t => Except.ok (t.getD "")
      | Except.error e => Except.error e

example : isRateLimitError ("x 429 y") = true := by decide

example : isInvalidKeyError ("API key not valid.") = true := by decide

example : isRateLimitError emptyKeyMsg = false := by decide

/-!  The App component (src/App.tsx, revision with cancellation).  React
state hooks become fields of AppState; cancelScanRef becomes the
cancelScan field.  The capture-session refs (streamRef, videoRef) are
modelled separately by CamState below, since no coordinator guard reads
them beyond element presence, which coincides with isCameraActive. -/

structure AppState where
  isCameraActive : Bool
  scannedTexts : List String
  apiResponse : String
  isScanning : Bool
  isGettingAnswer : Bool
  error : Option String
  isCoolingDown : Bool
  isAnswerCoolingDown : Bool
  cancelScan : Bool
deriving DecidableEq

/-- Outcome of an awaited remote call as seen by the App handlers: the
resolved text, or a thrown error's message. -/
inductive ExtractOutcome where
  | success (text : String)
  | failure (msg : String)
deriving DecidableEq

/-- Whitespace as removed by JavaScript String.prototype.trim: the
ECMAScript WhiteSpace production (TAB, VT, FF, SP, NBSP, ZWNBSP and every
Unicode Zs space separator: OGHAM SPACE MARK, the EN-QUAD..HAIR-SPACE
range, NARROW NBSP, MEDIUM MATHEMATICAL SPACE, IDEOGRAPHIC SPACE) together
with the LineTerminator production (LF, CR, LINE SEPARATOR, PARAGRAPH
SEPARATOR). -/
def isJsWhitespace (c : Char) : Bool :=
  c = ' ' || c = '\t' || c = '\n' || c = '\r' ||
  c = '\x0b' || c = '\x0c' || c = '\u00A0' || c = '\u1680' ||
  c = '\u2000' || c = '\u2001' || c = '\u2002' || c = '\u2003' ||
  c = '\u2004' || c = '\u2005' || c = '\u2006' || c = '\u2007' ||
  c = '\u2008' || c = '\u2009' || c = '\u200A' || c = '\u2028' ||
  c = '\u2029' || c = '\u202F' || c = '\u205F' || c = '\u3000' ||
  c = '\uFEFF'

/-- Model of JavaScript String.prototype.trim: strip whitespace from both
ends. -/
def jsTrim (s : String) : String :=
  String.mk (((s.data.dropWhile isJsWhitespace).reverse.dropWhile isJsWhitespace).reverse)

/-- Error message shown when extraction fails rate-limited (App.tsx). -/
def scanBusyMsg : String := "API is busy. Please wait a moment before scanning again."

/-- Error message shown when extraction fails generically (App.tsx). -/
def scanFailedMsg : String := "Failed to extract text. Please try again."

/-- Error message shown when the answer call fails rate-limited (App.tsx). -/
def answerBusyMsg : String := "API is busy. Please wait a moment before trying again."

/-- Error message shown when the answer call fails generically (App.tsx). -/
def answerFailedMsg : String := "Could not get an answer. Please try again."

/-- Error message set when camera acquisition fails (startCamera). -/
def cameraErrMsg : String := "Could not access the camera. Please grant permission and try again."

/-- Guard of handleScanFrame (App.tsx line 320).  The videoRef/canvasRef
null checks coincide with the camera-active render already tested here. -/
def scanBlocked (a : AppState) : Bool :=
  a.isScanning || !a.isCameraActive || a.isCoolingDown

/-- Guard of handleGetAnswer (App.tsx line 366). -/
def answerBlocked (a : AppState) : Bool :=
  a.scannedTexts.length == 0 || a.isGettingAnswer || a.isAnswerCoolingDown

/-- Resumption of handleScanFrame after `await extractTextFromImage`
(App.tsx lines 336-359): post-await cancellation checks, conditional
transcript append of the trimmed text, error classification, and the
finally block (cooldown only when not cancelled, then isScanning reset).
Note that a `return` inside the try block still runs the finally block. -/
def scanResume (a : AppState) (o : ExtractOutcome) : AppState :=
  match o with
  | ExtractOutcome.success text =>
      if a.cancelScan then
        { a with isScanning := false }
      else
        let a1 := if text ≠ "" ∧ 0 < (jsTrim text).length
          then { a with scannedTexts := a.scannedTexts ++ [jsTrim text] }
          else a
        { a1 with isCoolingDown := true, isScanning := false }
  | ExtractOutcome.failure msg =>
      if a.cancelScan then
        { a with isScanning := false }
      else
        let errMsg := if isRateLimitError msg then scanBusyMsg else scanFailedMsg
        { a with error := some errMsg, isCoolingDown := true, isScanning := false }

/-- Resumption of handleGetAnswer after `await getAnswerFromText`
(App.tsx lines 373-386): store the answer or a classified error, then the
finally block resets the flag and starts the answer cooldown. -/
def answerResume (a : AppState) (o : ExtractOutcome) : AppState :=
  let a1 := match o with
    | ExtractOutcome.success t => { a with apiResponse := t }
    | ExtractOutcome.failure m =>
        { a with error := some (if isRateLimitError m then answerBusyMsg else answerFailedMsg) }
  { a1 with isGettingAnswer := false, isAnswerCoolingDown := true }

/-- handleClearTexts (App.tsx lines 388-392). -/
def handleClearTexts (a : AppState) : AppState :=
  { a with scannedTexts := [], apiResponse := "", error := none }

/-- Events of the coordinator state machine.  Each handler contributes its
synchronous prefix as one event and its post-await resumption as another;
cooldown-timer expirations are separate events. -/
inductive Ev where
  | scanStart (ctxOk : Bool)
  | scanComplete (o : ExtractOutcome)
  | cancelScan
  | scanCooldownExpire
  | answerStart
  | answerComplete (o : ExtractOutcome)
  | answerCooldownExpire
  | clearTexts
  | toggleCamera (camOk : Bool)
deriving DecidableEq

/-- Whole-system state: the React state plus ghost instrumentation.
pendingScan / pendingAnswer count remote calls started but not yet
resolved (an extraction call stays pending across cancellation, since the
source never aborts the transport-level request); submittedQuestions
records every question string passed to getAnswerFromText. -/
structure Sys where
  app : AppState
  pendingScan : Nat
  pendingAnswer : Nat
  submittedQuestions : List String
deriving DecidableEq

/-- One step of the coordinator machine. -/
def step (s : Sys) (e : Ev) : Sys :=
  match e with
  | Ev.scanStart ctxOk =>
      -- handleScanFrame up to and including the extraction call start
      if scanBlocked s.app then s
      else
        let a := { s.app with cancelScan := false, isScanning := true, error := none }
        if ctxOk then { s with app := a, pendingScan := s.pendingScan + 1 }
        else { s with app := { a with isScanning := false } }
  | Ev.scanComplete o =>
      -- resolution of one in-flight extraction call
      if s.pendingScan = 0 then s
      else { s with app := scanResume s.app o, pendingScan := s.pendingScan - 1 }
  | Ev.cancelScan =>
      -- handleCancelScan (App.tsx lines 314-317)
      { s with app := { s.app with cancelScan := true, isScanning := false } }
  | Ev.scanCooldownExpire =>
      { s with app := { s.app with isCoolingDown := false } }
  | Ev.answerStart =>
      -- handleGetAnswer up to and including the answer call start
      if answerBlocked s.app then s
      else
        { s with
          app := { s.app with isGettingAnswer := true, error := none, apiResponse := "" },
          pendingAnswer := s.pendingAnswer + 1,
          submittedQuestions :=
            s.submittedQuestions ++ [String.intercalate (" ") s.app.scannedTexts] }
  | Ev.answerComplete o =>
      if s.pendingAnswer = 0 then s
      else { s with app := answerResume s.app o, pendingAnswer := s.pendingAnswer - 1 }
  | Ev.answerCooldownExpire =>
      { s with app := { s.app with isAnswerCoolingDown := false } }
  | Ev.clearTexts =>
      { s with app := handleClearTexts s.app }
  | Ev.toggleCamera camOk =>
      -- handleToggleCamera (App.tsx lines 394-403); camOk is the outcome
      -- of the getUserMedia acquisition inside startCamera
      if s.app.isCameraActive then
        { s with app := { s.app with isCameraActive := false } }
      else
        let a := { handleClearTexts s.app with isCameraActive := true }
        if camOk then { s with app := a }
        else { s with app := { a with error := some cameraErrMsg, isCameraActive := false } }

/-- Run a list of events from a state. -/
def run (s : Sys) (evs : List Ev) : Sys :=
  evs.foldl step s

/-- The capture-session refs (streamRef.current with its tracks, and
videoRef.current.srcObject); stoppedTracks records every hardware track on
which stop() has been invoked. -/
structure CamState where
  stream : Option (List Nat)
  videoSrc : Option (List Nat)
  stoppedTracks : List Nat
deriving DecidableEq

/-- stopCamera (App.tsx lines 283-291): stop every track of the current
stream and null out streamRef, then null out the video element's
srcObject. -/
def stopCamera (c : CamState) : CamState :=
  let c1 := match c.stream with
    | some ts => { c with stoppedTracks := c.stoppedTracks ++ ts, stream := none }
    | none => c
  { c1 with videoSrc := none }

/-- A state from which a scan can start: camera on, not scanning, no scan
cooldown running. -/
def ReadyScan (s : Sys) : Prop :=
  s.app.isScanning = false ∧ s.app.isCoolingDown = false ∧ s.app.isCameraActive = true

/-- A concrete camera-on idle state, used as a base point for witnesses
and counterexamples. -/
def readyApp : AppState :=
  { isCameraActive := true, scannedTexts := [], apiResponse := "",
    isScanning := false, isGettingAnswer := false, error := none,
    isCoolingDown := false, isAnswerCoolingDown := false, cancelScan := false }

/-- The system at readyApp with no pending calls. -/
def readySys : Sys := ⟨readyApp, 0, 0, []⟩

example : ReadyScan readySys := by constructor <;> simp [readySys, readyApp]

example :
    (run readySys [Ev.scanStart true, Ev.scanComplete (ExtractOutcome.success (" hi "))]).app.scannedTexts
      = [("hi" : String)] := by decide

/-!  Unfolding lemmas for the retry loop, one per control path. -/

lemma callGeminiAux_ok {α : Type} (f : Nat → Except String α) (mr d a : Nat) (v : α)
    (h : f a = Except.ok v) :
    callGeminiAux f mr d a = ⟨Except.ok v, [], [a]⟩ := by
  unfold callGeminiAux
  rw [h]

lemma callGeminiAux_stop {α : Type} (f : Nat → Except String α) (mr d a : Nat) (m : String)
    (h : f a = Except.error m)
    (hcls : isInvalidKeyError m = true ∨ isRateLimitError m = false) :
    callGeminiAux f mr d a = ⟨Except.error m, [], [a]⟩ := by
  unfold callGeminiAux
  rw [h]
  rcases hcls with hk | hr
  · simp [hk]
  · rcases hk : isInvalidKeyError m <;> simp [hk, hr]

lemma callGeminiAux_retry {α : Type} (f : Nat → Except String α) (mr d a : Nat) (m : String)
    (h : f a = Except.error m)
    (hk : isInvalidKeyError m = false) (hr : isRateLimitError m = true) (ha : a < mr) :
    callGeminiAux f mr d a =
      ⟨(callGeminiAux f mr d (a + 1)).result,
        d * 2 ^ a :: (callGeminiAux f mr d (a + 1)).delays,
        a :: (callGeminiAux f mr d (a + 1)).attempts⟩ := by
  conv_lhs => unfold callGeminiAux
  rw [h]
  simp [hk, hr, ha]

lemma callGeminiAux_exhaust {α : Type} (f : Nat → Except String α) (mr d a : Nat) (m : String)
    (h : f a = Except.error m)
    (hk : isInvalidKeyError m = false) (hr : isRateLimitError m = true) (ha : ¬ a < mr) :
    callGeminiAux f mr d a = ⟨Except.error m, [], [a]⟩ := by
  unfold callGeminiAux
  rw [h]
  simp [hk, hr, ha]

/-- Claim C2: with the default parameters maxRetries = 2 and
initialDelay = 2000, if the wrapped operation fails rate-limit-classified
on attempts 1 and 2 (indices 0 and 1) and succeeds on attempt 3 (index 2),
the wrapper returns that success and the backoff delays slept before the
retries are exactly 2000 ms and 4000 ms; and if instead all three attempts
fail rate-limit-classified, the wrapper surfaces the last error to the
caller, after the same two delays. -/
theorem retry_backoff_schedule {α : Type} (f g : Nat → Except String α)
    (m0 m1 n0 n1 n2 : String) (v : α)
    (hf0 : f 0 = Except.error m0) (hr0 : isRateLimitError m0 = true)
    (hk0 : isInvalidKeyError m0 = false)
    (hf1 : f 1 = Except.error m1) (hr1 : isRateLimitError m1 = true)
    (hk1 : isInvalidKeyError m1 = false)
    (hf2 : f 2 = Except.ok v)
    (hg0 : g 0 = Except.error n0) (hs0 : isRateLimitError n0 = true)
    (hj0 : isInvalidKeyError n0 = false)
    (hg1 : g 1 = Except.error n1) (hs1 : isRateLimitError n1 = true)
    (hj1 : isInvalidKeyError n1 = false)
    (hg2 : g 2 = Except.error n2) (hs2 : isRateLimitError n2 = true)
    (hj2 : isInvalidKeyError n2 = false) :
    callGeminiWithRetry f 2 2000 = ⟨Except.ok v, [2000, 4000], [0, 1, 2]⟩ ∧
    callGeminiWithRetry g 2 2000 = ⟨Except.error n2, [2000, 4000], [0, 1, 2]⟩ := by
  constructor
  · rw [callGeminiWithRetry,
      callGeminiAux_retry f 2 2000 0 m0 hf0 hk0 hr0 (by omega),
      callGeminiAux_retry f 2 2000 1 m1 hf1 hk1 hr1 (by omega),
      callGeminiAux_ok f 2 2000 2 v hf2]
    rfl
  · rw [callGeminiWithRetry,
      callGeminiAux_retry g 2 2000 0 n0 hg0 hj0 hs0 (by omega),
      callGeminiAux_retry g 2 2000 1 n1 hg1 hj1 hs1 (by omega),
      callGeminiAux_exhaust g 2 2000 2 n2 hg2 hj2 hs2 (by omega)]
    rfl

/-- Witness for C2 at concrete operations failing with a 429 message. -/
theorem retry_backoff_schedule_w :
    callGeminiWithRetry (fun n => if n < 2 then Except.error ("429") else Except.ok 7) 2 2000
      = ⟨Except.ok 7, [2000, 4000], [0, 1, 2]⟩ ∧
    callGeminiWithRetry (fun _ => (Except.error ("429") : Except String Nat)) 2 2000
      = ⟨Except.error ("429"), [2000, 4000], [0, 1, 2]⟩ :=
  retry_backoff_schedule
    (fun n => if n < 2 then Except.error ("429") else Except.ok 7)
    (fun _ => Except.error ("429")) ("429") ("429") ("429") ("429") ("429") 7
    rfl (by decide) (by decide)
    rfl (by decide) (by decide)
    rfl
    rfl (by decide) (by decide)
    rfl (by decide) (by decide)
    rfl (by decide) (by decide)

/-- Claim C3: an error that is invalid-credential-classified, or that is
neither rate-limit- nor invalid-credential-classified, makes the retry
loop fail immediately with that error: the failing call is the only
attempt made and no backoff delay is slept.  Conversely, whenever the loop
makes more than one attempt, the error it saw first was
rate-limit-classified and not invalid-credential-classified. -/
theorem retry_fail_fast {α : Type} (f : Nat → Except String α) (mr d a : Nat) (m : String)
    (hf : f a = Except.error m)
    (hcls : isInvalidKeyError m = true ∨ isRateLimitError m = false) :
    callGeminiAux f mr d a = ⟨Except.error m, [], [a]⟩ ∧
    ∀ (g : Nat → Except String α) (b : Nat),
      1 < (callGeminiAux g mr d b).attempts.length →
      ∃ m2, g b = Except.error m2 ∧ isRateLimitError m2 = true ∧
        isInvalidKeyError m2 = false := by
  refine ⟨callGeminiAux_stop f mr d a m hf hcls, ?_⟩
  intro g b hlen
  cases hgb : g b with
  | ok v =>
      rw [callGeminiAux_ok g mr d b v hgb] at hlen
      simp at hlen
  | error m2 =>
      by_cases hkey : isInvalidKeyError m2 = true
      · rw [callGeminiAux_stop g mr d b m2 hgb (Or.inl hkey)] at hlen
        simp at hlen
      · by_cases hrate : isRateLimitError m2 = true
        · exact ⟨m2, rfl, hrate, by simpa using hkey⟩
        · rw [callGeminiAux_stop g mr d b m2 hgb (Or.inr (by simpa using hrate))] at hlen
          simp at hlen

/-- Witness for C3 at a concrete invalid-key-classified failure. -/
theorem retry_fail_fast_w :
    callGeminiAux (fun _ => (Except.error ("API key not valid.") : Except String Nat)) 2 2000 0
      = ⟨Except.error ("API key not valid."), [], [0]⟩ ∧
    ∀ (g : Nat → Except String Nat) (b : Nat),
      1 < (callGeminiAux g 2 2000 b).attempts.length →
      ∃ m2, g b = Except.error m2 ∧ isRateLimitError m2 = true ∧
        isInvalidKeyError m2 = false :=
  retry_fail_fast (fun _ => Except.error ("API key not valid.")) 2 2000 0
    ("API key not valid.") rfl (Or.inl (by decide))

/-- Claim C6: configuring with an empty key stores no client and reports
the empty-key error, which is not rate-limit-classified (so never retried)
and is distinct from the not-initialized error; extractTextFromImage and
getAnswerFromText before any successful configuration fail with the
not-initialized error; a successful configure stores the key, and a
subsequent extraction proceeds through the stored credential (here: its
first attempt succeeds through the oracle applied to that key). -/
theorem configure_contract (key img q t : String)
    (remote aremote : String → String → Nat → Except String (Option String))
    (hk : key ≠ "")
    (hr : remote key img 0 = Except.ok (some t)) :
    (initializeApi ("")).1 = none ∧
    (initializeApi ("")).2 = some emptyKeyMsg ∧
    isRateLimitError emptyKeyMsg = false ∧
    emptyKeyMsg ≠ notInitializedMsg ∧
    extractTextFromImage none remote img = Except.error notInitializedMsg ∧
    getAnswerFromText none aremote q = Except.error notInitializedMsg ∧
    initializeApi key = (some key, none) ∧
    extractTextFromImage (some key) remote img = Except.ok t := by
  refine ⟨by simp [initializeApi], by simp [initializeApi], by decide, by decide,
    rfl, rfl, by simp [initializeApi, hk], ?_⟩
  rw [extractTextFromImage, callGeminiWithRetry,
    callGeminiAux_ok (remote key img) 2 2000 0 (some t) hr]
  rfl

/-- Witness for C6 at a concrete key and a one-shot successful oracle. -/
theorem configure_contract_w :
    (initializeApi ("")).1 = none ∧
    (initializeApi ("")).2 = some emptyKeyMsg ∧
    isRateLimitError emptyKeyMsg = false ∧
    emptyKeyMsg ≠ notInitializedMsg ∧
    extractTextFromImage none (fun _ _ _ => Except.ok (some ("hello"))) ("img")
      = Except.error notInitializedMsg ∧
    getAnswerFromText none (fun _ _ _ => Except.ok (some ("hello"))) ("2+2?")
      = Except.error notInitializedMsg ∧
    initializeApi ("k") = (some ("k"), none) ∧
    extractTextFromImage (some ("k")) (fun _ _ _ => Except.ok (some ("hello"))) ("img")
      = Except.ok ("hello") :=
  configure_contract ("k") ("img") ("2+2?") ("hello")
    (fun _ _ _ => Except.ok (some ("hello"))) (fun _ _ _ => Except.ok (some ("hello")))
    (by decide) rfl

/-- Claim C1: when the cancellation flag is set at the moment the
extraction call resolves, the completion mutates neither the transcript
nor the user-facing error and starts no scan cooldown, for a successful
and for a failed extraction alike. -/
theorem cancelled_scan_inert (s : Sys) (o : ExtractOutcome)
    (h : s.app.cancelScan = true) :
    (step s (Ev.scanComplete o)).app.scannedTexts = s.app.scannedTexts ∧
    (step s (Ev.scanComplete o)).app.error = s.app.error ∧
    (step s (Ev.scanComplete o)).app.isCoolingDown = s.app.isCoolingDown := by
  by_cases hp : s.pendingScan = 0 <;> cases o <;>
    simp [step, scanResume, hp, h]

/-- A concrete state with one in-flight extraction whose scan has been
cancelled. -/
def cancelledSys : Sys :=
  ⟨{ readyApp with cancelScan := true, isScanning := false }, 1, 0, []⟩

/-- Witness for C1 at a concrete cancelled in-flight scan that fails. -/
theorem cancelled_scan_inert_w :
    (step cancelledSys (Ev.scanComplete (ExtractOutcome.failure ("boom")))).app.scannedTexts
      = cancelledSys.app.scannedTexts ∧
    (step cancelledSys (Ev.scanComplete (ExtractOutcome.failure ("boom")))).app.error
      = cancelledSys.app.error ∧
    (step cancelledSys (Ev.scanComplete (ExtractOutcome.failure ("boom")))).app.isCoolingDown
      = cancelledSys.app.isCoolingDown :=
  cancelled_scan_inert cancelledSys (ExtractOutcome.failure ("boom")) rfl

/-- Claim C8: the two cooldown windows are independent.  The answer guard
does not read the scan cooldown and the scan guard does not read the
answer cooldown: overwriting the other coordinator's cooldown flag leaves
each guard's verdict unchanged. -/
theorem cooldowns_independent (a : AppState) (b c : Bool) :
    answerBlocked { a with isCoolingDown := b } = answerBlocked a ∧
    scanBlocked { a with isAnswerCoolingDown := c } = scanBlocked a :=
  ⟨rfl, rfl⟩

/-- Claim C9: stopCamera always clears the stream reference and the video
frame source, the tracks released are exactly the previously stopped ones
plus every track of the current stream, and stopCamera composed with
itself equals stopCamera (idempotence: a second call changes nothing). -/
theorem stopCamera_idempotent_releases (c : CamState) :
    (stopCamera c).stream = none ∧
    (stopCamera c).videoSrc = none ∧
    (stopCamera c).stoppedTracks = c.stoppedTracks ++ c.stream.getD [] ∧
    stopCamera (stopCamera c) = stopCamera c := by
  cases h : c.stream <;> simp [stopCamera, h]

/-- Claim C10: handleClearTexts empties the transcript, resets the answer
text to the empty string and drops the held error, while leaving the
scanning flag, the answering flag, both cooldown flags and the
camera-active flag untouched; re-activating the camera performs exactly
this clear (plus setting the camera-active flag). -/
theorem clear_resets_answer_too (a : AppState) (s : Sys)
    (hoff : s.app.isCameraActive = false) :
    (handleClearTexts a).scannedTexts = [] ∧
    (handleClearTexts a).apiResponse = "" ∧
    (handleClearTexts a).error = none ∧
    (handleClearTexts a).isScanning = a.isScanning ∧
    (handleClearTexts a).isGettingAnswer = a.isGettingAnswer ∧
    (handleClearTexts a).isCoolingDown = a.isCoolingDown ∧
    (handleClearTexts a).isAnswerCoolingDown = a.isAnswerCoolingDown ∧
    (handleClearTexts a).isCameraActive = a.isCameraActive ∧
    (step s (Ev.toggleCamera true)).app
      = { handleClearTexts s.app with isCameraActive := true } := by
  refine ⟨rfl, rfl, rfl, rfl, rfl, rfl, rfl, rfl, ?_⟩
  simp [step, hoff]

/-- A concrete camera-off state holding a transcript, an answer and an
error. -/
def dirtyOffSys : Sys :=
  ⟨{ readyApp with
      isCameraActive := false
      scannedTexts := [("old")]
      apiResponse := "stale"
      error := some ("oops") }, 0, 0, []⟩

/-- Witness for C10 at a concrete dirty camera-off state. -/
theorem clear_resets_answer_too_w :
    (handleClearTexts dirtyOffSys.app).scannedTexts = [] ∧
    (handleClearTexts dirtyOffSys.app).apiResponse = "" ∧
    (handleClearTexts dirtyOffSys.app).error = none ∧
    (handleClearTexts dirtyOffSys.app).isScanning = dirtyOffSys.app.isScanning ∧
    (handleClearTexts dirtyOffSys.app).isGettingAnswer = dirtyOffSys.app.isGettingAnswer ∧
    (handleClearTexts dirtyOffSys.app).isCoolingDown = dirtyOffSys.app.isCoolingDown ∧
    (handleClearTexts dirtyOffSys.app).isAnswerCoolingDown = dirtyOffSys.app.isAnswerCoolingDown ∧
    (handleClearTexts dirtyOffSys.app).isCameraActive = dirtyOffSys.app.isCameraActive ∧
    (step dirtyOffSys (Ev.toggleCamera true)).app
      = { handleClearTexts dirtyOffSys.app with isCameraActive := true } :=
  clear_resets_answer_too dirtyOffSys.app dirtyOffSys rfl

/-- Claim C7: when the answer guard passes, the question submitted by
handleGetAnswer is the transcript joined with single-space separators, in
order. -/
theorem answer_question_is_join (s : Sys) (h : answerBlocked s.app = false) :
    (step s Ev.answerStart).submittedQuestions
      = s.submittedQuestions ++ [String.intercalate (" ") s.app.scannedTexts] := by
  simp [step, h]

/-- A concrete state whose transcript is the two snippets of the claim. -/
def fooBarSys : Sys :=
  ⟨{ readyApp with scannedTexts := [("foo"), ("bar baz")] }, 0, 0, []⟩

/-- Witness for C7: the transcript consisting of foo and bar-baz submits
exactly the single string foo-space-bar-space-baz. -/
theorem answer_question_is_join_w :
    (step fooBarSys Ev.answerStart).submittedQuestions = [("foo bar baz")] := by
  rw [answer_question_is_join fooBarSys (by decide)]
  decide

/-!  In-flight call bounds (C4). -/

/-- Invariant tying the in-flight-extraction count to the isScanning
guard flag. -/
def ScanInv (s : Sys) : Prop :=
  s.pendingScan ≤ 1 ∧ (s.pendingScan = 1 → s.app.isScanning = true)

/-- Invariant tying the in-flight-answer count to the isGettingAnswer
guard flag. -/
def AnswerInv (s : Sys) : Prop :=
  s.pendingAnswer ≤ 1 ∧ (s.pendingAnswer = 1 → s.app.isGettingAnswer = true)

lemma scanResume_isGettingAnswer (a : AppState) (o : ExtractOutcome) :
    (scanResume a o).isGettingAnswer = a.isGettingAnswer := by
  cases o with
  | success t =>
      by_cases hc : a.cancelScan <;>
        by_cases ht : (t ≠ "" ∧ 0 < (jsTrim t).length) <;>
        simp [scanResume, hc, ht]
  | failure m =>
      by_cases hc : a.cancelScan <;> simp [scanResume, hc]

lemma answerResume_isScanning (a : AppState) (o : ExtractOutcome) :
    (answerResume a o).isScanning = a.isScanning := by
  cases o <;> simp [answerResume]

lemma answerInv_of (s1 s2 : Sys) (h : AnswerInv s1)
    (hp : s2.pendingAnswer = s1.pendingAnswer)
    (hf : s2.app.isGettingAnswer = s1.app.isGettingAnswer) : AnswerInv s2 := by
  obtain ⟨h1, h2⟩ := h
  constructor
  · rw [hp]
    exact h1
  · intro he
    rw [hf]
    refine h2 ?_
    rw [← hp]
    exact he

lemma scanInv_of (s1 s2 : Sys) (h : ScanInv s1)
    (hp : s2.pendingScan = s1.pendingScan)
    (hf : s2.app.isScanning = s1.app.isScanning) : ScanInv s2 := by
  obtain ⟨h1, h2⟩ := h
  constructor
  · rw [hp]
    exact h1
  · intro he
    rw [hf]
    refine h2 ?_
    rw [← hp]
    exact he

lemma answerInv_step (s : Sys) (e : Ev) (h : AnswerInv s) : AnswerInv (step s e) := by
  cases e with
  | scanStart ctxOk =>
      by_cases hb : scanBlocked s.app
      · refine answerInv_of s _ h ?_ ?_ <;> simp [step, hb]
      · by_cases hc : ctxOk <;>
          · refine answerInv_of s _ h ?_ ?_ <;> simp [step, hb, hc]
  | scanComplete o =>
      by_cases hp : s.pendingScan = 0
      · refine answerInv_of s _ h ?_ ?_ <;> simp [step, hp]
      · refine answerInv_of s _ h ?_ ?_ <;>
          simp [step, hp, scanResume_isGettingAnswer]
  | cancelScan => refine answerInv_of s _ h ?_ ?_ <;> simp [step]
  | scanCooldownExpire => refine answerInv_of s _ h ?_ ?_ <;> simp [step]
  | answerStart =>
      by_cases hb : answerBlocked s.app
      · refine answerInv_of s _ h ?_ ?_ <;> simp [step, hb]
      · obtain ⟨h1, h2⟩ := h
        have hflag : s.app.isGettingAnswer = false := by
          cases hg : s.app.isGettingAnswer
          · rfl
          · simp [answerBlocked, hg] at hb
        have hzero : s.pendingAnswer = 0 := by
          rcases Nat.lt_or_ge s.pendingAnswer 1 with hlt | hge
          · omega
          · have h1' : s.pendingAnswer = 1 := by omega
            rw [h2 h1'] at hflag
            simp at hflag
        have e1 : (step s Ev.answerStart).pendingAnswer = s.pendingAnswer + 1 := by
          simp [step, hb]
        have e2 : (step s Ev.answerStart).app.isGettingAnswer = true := by
          simp [step, hb]
        exact ⟨by omega, fun _ => e2⟩
  | answerComplete o =>
      by_cases hp : s.pendingAnswer = 0
      · refine answerInv_of s _ h ?_ ?_ <;> simp [step, hp]
      · obtain ⟨h1, h2⟩ := h
        have e1 : (step s (Ev.answerComplete o)).pendingAnswer = s.pendingAnswer - 1 := by
          simp [step, hp]
        exact ⟨by omega, fun he => absurd (e1 ▸ he) (by omega)⟩
  | answerCooldownExpire => refine answerInv_of s _ h ?_ ?_ <;> simp [step]
  | clearTexts => refine answerInv_of s _ h ?_ ?_ <;> simp [step, handleClearTexts]
  | toggleCamera camOk =>
      by_cases hon : s.app.isCameraActive
      · refine answerInv_of s _ h ?_ ?_ <;> simp [step, hon]
      · by_cases hc : camOk <;>
          · refine answerInv_of s _ h ?_ ?_ <;> simp [step, hon, hc, handleClearTexts]

lemma scanInv_step (s : Sys) (e : Ev) (h : ScanInv s) (hne : e ≠ Ev.cancelScan) :
    ScanInv (step s e) := by
  cases e with
  | scanStart ctxOk =>
      by_cases hb : scanBlocked s.app
      · refine scanInv_of s _ h ?_ ?_ <;> simp [step, hb]
      · obtain ⟨h1, h2⟩ := h
        have hflag : s.app.isScanning = false := by
          cases hg : s.app.isScanning
          · rfl
          · simp [scanBlocked, hg] at hb
        have hzero : s.pendingScan = 0 := by
          rcases Nat.lt_or_ge s.pendingScan 1 with hlt | hge
          · omega
          · have h1' : s.pendingScan = 1 := by omega
            rw [h2 h1'] at hflag
            simp at hflag
        cases hc : ctxOk
        · have e1 : (step s (Ev.scanStart false)).pendingScan = s.pendingScan := by
            simp [step, hb]
          have e2 : (step s (Ev.scanStart false)).app.isScanning = false := by
            simp [step, hb]
          exact ⟨by omega, fun he => absurd (e1 ▸ he) (by omega)⟩
        · have e1 : (step s (Ev.scanStart true)).pendingScan = s.pendingScan + 1 := by
            simp [step, hb]
          have e2 : (step s (Ev.scanStart true)).app.isScanning = true := by
            simp [step, hb]
          exact ⟨by omega, fun _ => e2⟩
  | scanComplete o =>
      by_cases hp : s.pendingScan = 0
      · refine scanInv_of s _ h ?_ ?_ <;> simp [step, hp]
      · obtain ⟨h1, h2⟩ := h
        have e1 : (step s (Ev.scanComplete o)).pendingScan = s.pendingScan - 1 := by
          simp [step, hp]
        exact ⟨by omega, fun he => absurd (e1 ▸ he) (by omega)⟩
  | cancelScan => exact absurd rfl hne
  | scanCooldownExpire => refine scanInv_of s _ h ?_ ?_ <;> simp [step]
  | answerStart =>
      by_cases hb : answerBlocked s.app
      · refine scanInv_of s _ h ?_ ?_ <;> simp [step, hb]
      · refine scanInv_of s _ h ?_ ?_ <;> simp [step, hb]
  | answerComplete o =>
      by_cases hp : s.pendingAnswer = 0
      · refine scanInv_of s _ h ?_ ?_ <;> simp [step, hp]
      · refine scanInv_of s _ h ?_ ?_ <;>
          simp [step, hp, answerResume_isScanning]
  | answerCooldownExpire => refine scanInv_of s _ h ?_ ?_ <;> simp [step]
  | clearTexts => refine scanInv_of s _ h ?_ ?_ <;> simp [step, handleClearTexts]
  | toggleCamera camOk =>
      by_cases hon : s.app.isCameraActive
      · refine scanInv_of s _ h ?_ ?_ <;> simp [step, hon]
      · by_cases hc : camOk <;>
          · refine scanInv_of s _ h ?_ ?_ <;> simp [step, hon, hc, handleClearTexts]

lemma answerInv_run (s : Sys) (evs : List Ev) (h : AnswerInv s) :
    AnswerInv (run s evs) := by
  induction evs generalizing s with
  | nil => exact h
  | cons e l ih => exact ih (step s e) (answerInv_step s e h)

lemma scanInv_run (s : Sys) (evs : List Ev) (h : ScanInv s)
    (hnc : Ev.cancelScan ∉ evs) : ScanInv (run s evs) := by
  induction evs generalizing s with
  | nil => exact h
  | cons e l ih =>
      rw [List.mem_cons] at hnc
      push_neg at hnc
      exact ih (step s e) (scanInv_step s e h (fun hcontra => hnc.1 hcontra.symm)) hnc.2

/-- Claim C4 (amended): for every interleaving free of cancellation
events, at most one extraction call is in flight at any time, and at most
one answer call is in flight for every interleaving whatsoever; moreover a
scan trigger while a scan is running or its cooldown is active, and an
answer trigger while an answer is running or its cooldown is active, are
no-ops that change nothing (in particular they start no remote call).
After a cancellation the source CAN start a second extraction while the
cancelled one is still in flight — see the counterexample. -/
theorem inflight_at_most_one (s : Sys) (evs : List Ev)
    (hS : ScanInv s) (hA : AnswerInv s) :
    ((run s evs).pendingAnswer ≤ 1) ∧
    (Ev.cancelScan ∉ evs → (run s evs).pendingScan ≤ 1) ∧
    (∀ c : Bool, s.app.isScanning = true ∨ s.app.isCoolingDown = true →
      step s (Ev.scanStart c) = s) ∧
    ((s.app.isGettingAnswer = true ∨ s.app.isAnswerCoolingDown = true) →
      step s Ev.answerStart = s) := by
  refine ⟨(answerInv_run s evs hA).1, fun hnc => (scanInv_run s evs hS hnc).1, ?_, ?_⟩
  · intro c hor
    have hb : scanBlocked s.app = true := by
      rcases hor with h1 | h1 <;> simp [scanBlocked, h1]
    simp [step, hb]
  · intro hor
    have hb : answerBlocked s.app = true := by
      rcases hor with h1 | h1 <;> simp [answerBlocked, h1]
    simp [step, hb]

/-- Witness for C4 (amended) on a concrete cancellation-free trace. -/
theorem inflight_at_most_one_w :
    ((run readySys [Ev.scanStart true,
        Ev.scanComplete (ExtractOutcome.success ("hi"))]).pendingAnswer ≤ 1) ∧
    (Ev.cancelScan ∉ [Ev.scanStart true,
        Ev.scanComplete (ExtractOutcome.success ("hi"))] →
      (run readySys [Ev.scanStart true,
        Ev.scanComplete (ExtractOutcome.success ("hi"))]).pendingScan ≤ 1) ∧
    (∀ c : Bool, readySys.app.isScanning = true ∨ readySys.app.isCoolingDown = true →
      step readySys (Ev.scanStart c) = readySys) ∧
    ((readySys.app.isGettingAnswer = true ∨ readySys.app.isAnswerCoolingDown = true) →
      step readySys Ev.answerStart = readySys) :=
  inflight_at_most_one readySys
    [Ev.scanStart true, Ev.scanComplete (ExtractOutcome.success ("hi"))]
    (by constructor <;> simp [readySys, readyApp])
    (by constructor <;> simp [readySys, readyApp])

/-- Counterexample to C4 as stated: trigger a scan, cancel it, trigger
again.  The cancellation resets isScanning without starting a cooldown,
so the second trigger passes the guard while the first extraction call is
still in flight: two extraction calls are then in flight at once. -/
theorem two_scans_in_flight :
    1 < (run readySys [Ev.scanStart true, Ev.cancelScan, Ev.scanStart true]).pendingScan := by
  decide

/-!  Transcript contents after successful scans (C5). -/

lemma string_length_pos_iff (s : String) : 0 < s.length ↔ s ≠ "" := by
  constructor
  · intro hlen hcontra
    rw [hcontra] at hlen
    exact absurd hlen (by decide)
  · intro hne
    rcases s with ⟨d⟩
    cases d with
    | nil => exact absurd rfl hne
    | cons c cs => simp [String.length]

lemma jsTrim_empty : jsTrim ("") = "" := rfl

/-- The transcript-append condition of handleScanFrame is equivalent to
the trimmed text being non-empty. -/
lemma append_cond_iff (t : String) :
    (t ≠ "" ∧ 0 < (jsTrim t).length) ↔ jsTrim t ≠ "" := by
  constructor
  · rintro ⟨-, hlen⟩
    exact (string_length_pos_iff (jsTrim t)).mp hlen
  · intro h
    refine ⟨?_, (string_length_pos_iff (jsTrim t)).mpr h⟩
    intro hcontra
    rw [hcontra, jsTrim_empty] at h
    exact h rfl

/-- One full successful scan cycle (trigger, resolution, cooldown expiry)
from a ready state: it conditionally appends the trimmed text and returns
to a ready state with no error. -/
lemma scan_cycle (s : Sys) (t : String) (h : ReadyScan s) :
    run s [Ev.scanStart true, Ev.scanComplete (ExtractOutcome.success t), Ev.scanCooldownExpire]
      = { s with app := { s.app with
            cancelScan := false
            error := none
            isScanning := false
            isCoolingDown := false
            scannedTexts := s.app.scannedTexts
              ++ (if jsTrim t ≠ "" then [jsTrim t] else []) } } := by
  obtain ⟨h1, h2, h3⟩ := h
  have hb : scanBlocked s.app = false := by simp [scanBlocked, h1, h2, h3]
  by_cases ht : jsTrim t ≠ "" <;>
    simp [run, step, scanResume, hb, append_cond_iff, ht]

/-- The event trace of a sequence of successful scans, one cycle per
extracted text. -/
def scanEvents (texts : List String) : List Ev :=
  texts.flatMap (fun t =>
    [Ev.scanStart true, Ev.scanComplete (ExtractOutcome.success t), Ev.scanCooldownExpire])

/-- Claim C5: from any ready state, running the scans of an arbitrary list
of extracted texts appends to the transcript exactly the trimmed texts
restricted to the non-empty ones, in completion order; and no error is
recorded (whitespace-only texts append nothing and record no error). -/
theorem transcript_of_scans (texts : List String) : ∀ s : Sys, ReadyScan s →
    (run s (scanEvents texts)).app.scannedTexts
        = s.app.scannedTexts ++ (texts.map jsTrim).filter (fun u => u ≠ "") ∧
    (run s (scanEvents texts)).app.error
        = (if texts = [] then s.app.error else none) := by
  induction texts with
  | nil =>
      intro s _
      simp [scanEvents, run]
  | cons t ts ih =>
      intro s h
      have hsplit : scanEvents (t :: ts)
          = [Ev.scanStart true, Ev.scanComplete (ExtractOutcome.success t),
             Ev.scanCooldownExpire] ++ scanEvents ts := by
        simp [scanEvents]
      have hcyc := scan_cycle s t h
      have hrun : run s (scanEvents (t :: ts))
          = run (run s [Ev.scanStart true, Ev.scanComplete (ExtractOutcome.success t),
              Ev.scanCooldownExpire]) (scanEvents ts) := by
        rw [hsplit, run, run, run, List.foldl_append]
      set s2 : Sys := { s with app := { s.app with
            cancelScan := false
            error := none
            isScanning := false
            isCoolingDown := false
            scannedTexts := s.app.scannedTexts
              ++ (if jsTrim t ≠ "" then [jsTrim t] else []) } } with hs2
      have hready2 : ReadyScan s2 := by
        refine ⟨rfl, rfl, ?_⟩
        have := h.2.2
        simpa [hs2] using this
      obtain ⟨iht, ihe⟩ := ih s2 hready2
      constructor
      · rw [hrun, hcyc, iht]
        by_cases ht : jsTrim t ≠ "" <;>
          simp [hs2, List.filter_cons, ht, List.append_assoc]
      · rw [hrun, hcyc, ihe]
        have hs2err : s2.app.error = none := rfl
        split <;> simp [hs2err]

/-- Witness for C5: scanning a padded text, a text consisting only of
whitespace (including IDEOGRAPHIC SPACE, LINE SEPARATOR and ZWNBSP, which
JavaScript trim removes) and a plain text yields exactly the two trimmed
non-empty snippets, no error. -/
theorem transcript_of_scans_w :
    (run readySys (scanEvents [("  foo "), ("\u3000\u2028\uFEFF "), ("bar baz")])).app.scannedTexts
        = readySys.app.scannedTexts
          ++ ((["  foo ", "\u3000\u2028\uFEFF ", "bar baz"].map jsTrim).filter (fun u => u ≠ "")) ∧
    (run readySys (scanEvents [("  foo "), ("\u3000\u2028\uFEFF "), ("bar baz")])).app.error
        = (if [("  foo "), ("\u3000\u2028\uFEFF "), ("bar baz")] = ([] : List String)
            then readySys.app.error else none) :=
  transcript_of_scans [("  foo "), ("\u3000\u2028\uFEFF "), ("bar baz")] readySys
    (by constructor <;> simp [readySys, readyApp])

example :
    (run readySys (scanEvents [("  foo "), ("\u3000\u2028\uFEFF "), ("bar baz")])).app.scannedTexts
      = [("foo"), ("bar baz")] := by decide

example : jsTrim ("\u3000") = "" := by decide

example : jsTrim ("\uFEFF") = "" := by decide

example : jsTrim ("\u2028\u2029") = "" := by decide

example : jsTrim ("\u2003\u1680\u202F") = "" := by decide

example :
    (run readySys (scanEvents [("\u3000")])).app.scannedTexts = [] := by decide
